import Mathlib

/-!
Verification of the `endian` library: a little/big-endian integer codec over
byte buffers (`little_endian.hpp`, with `big_endian.hpp` modelled from the
spec) and a sequential stream reader (`endian_stream_reader.hpp`).

Modelling conventions:
* A byte buffer (C++ `const uint8_t*`) is a total function `Nat → Nat`;
  the fact that every cell holds a byte (`< 256`) is the predicate
  `isByteBuffer`, assumed where the C++ type system guarantees it.
* Machine integers are `Nat` (unsigned) or `Int` (signed), with explicit
  `% 2 ^ w` where the C++ performs a conversion to a `w`-bit type.
  Per the spec's width descriptors, widths up to 32 bits live in a 32-bit
  container and wider widths in a 64-bit container.
* C++ `assert` failures are modelled by operations returning `none`.
-/

/-- A buffer cell models a C++ `uint8_t`: every value is below 256. -/
def isByteBuffer (b : Nat → Nat) : Prop := ∀ i, b i < 256

/-- The all-zero byte buffer, used as a concrete scratch buffer. -/
def zeroBuf : Nat → Nat := fun _ => 0

/-- Conversion of an unsigned `w`-bit value (assumed `< 2 ^ w`) to the signed
`w`-bit type of the same width, as the C++ integral conversion performs it:
two's-complement reinterpretation of the bit pattern. -/
def toSigned (w n : Nat) : Int :=
  if n < 2 ^ (w - 1) then (n : Int) else (n : Int) - 2 ^ w

/-- Conversion of a signed value to the unsigned `w`-bit type, as the C++
integral conversion performs it: reduction modulo `2 ^ w`. -/
def toUnsigned (w : Nat) (v : Int) : Nat := (v % (2 ^ w : Int)).toNat

/-- `little_endian::get<u8>`: `return *buffer;`. -/
def little_endian.get_u8 (buffer : Nat → Nat) : Nat := buffer 0

/-- `little_endian::put<u8>`: `*buffer = value;`; the stored cell is a
`uint8_t`, hence the reduction of the 8-bit `value` parameter. -/
def little_endian.put_u8 (value : Nat) (buffer : Nat → Nat) : Nat → Nat :=
  fun i => if i = 0 then value % 2 ^ 8 else buffer i

/-- `little_endian::get<i8>`: delegates to `get<u8>`, converting the result
to `int8_t`. -/
def little_endian.get_i8 (buffer : Nat → Nat) : Int :=
  toSigned 8 (little_endian.get_u8 buffer)

/-- `little_endian::put<i8>`: delegates to `put<u8>`, converting the value
to `uint8_t`. -/
def little_endian.put_i8 (value : Int) (buffer : Nat → Nat) : Nat → Nat :=
  little_endian.put_u8 (toUnsigned 8 value) buffer

/-- `little_endian::get<u16>`: `(buffer[1] << 8) | buffer[0]`, converted to
the 16-bit return type. -/
def little_endian.get_u16 (buffer : Nat → Nat) : Nat :=
  (buffer 1 <<< 8 ||| buffer 0) % 2 ^ 16

/-- `little_endian::put<u16>`: `buffer[0] = value & 0xFF;
buffer[1] = value >> 8 & 0xFF;`. -/
def little_endian.put_u16 (value : Nat) (buffer : Nat → Nat) : Nat → Nat :=
  fun i =>
    if i = 0 then value &&& 0xFF
    else if i = 1 then value >>> 8 &&& 0xFF
    else buffer i

/-- `little_endian::get<i16>`: delegates to `get<u16>`, converting the result
to `int16_t`. -/
def little_endian.get_i16 (buffer : Nat → Nat) : Int :=
  toSigned 16 (little_endian.get_u16 buffer)

/-- `little_endian::put<i16>`: delegates to `put<u16>`, converting the value
to `uint16_t`. -/
def little_endian.put_i16 (value : Int) (buffer : Nat → Nat) : Nat → Nat :=
  little_endian.put_u16 (toUnsigned 16 value) buffer

/-- `little_endian::get<u24>`: `(buffer[2] << 16) | (buffer[1] << 8) |
buffer[0]`, converted to the 32-bit container type of `u24`. -/
def little_endian.get_u24 (buffer : Nat → Nat) : Nat :=
  (buffer 2 <<< 16 ||| buffer 1 <<< 8 ||| buffer 0) % 2 ^ 32

/-- `little_endian::put<u24>`: three byte stores of `value & 0xFF`,
`value >> 8 & 0xFF`, `value >> 16 & 0xFF`. -/
def little_endian.put_u24 (value : Nat) (buffer : Nat → Nat) : Nat → Nat :=
  fun i =>
    if i = 0 then value &&& 0xFF
    else if i = 1 then value >>> 8 &&& 0xFF
    else if i = 2 then value >>> 16 &&& 0xFF
    else buffer i

/-- `little_endian::get<u32>`: or of the four shifted bytes, converted to the
32-bit return type. -/
def little_endian.get_u32 (buffer : Nat → Nat) : Nat :=
  (buffer 3 <<< 24 ||| buffer 2 <<< 16 ||| buffer 1 <<< 8 ||| buffer 0) % 2 ^ 32

/-- `little_endian::put<u32>`: four byte stores `value >> 8k & 0xFF`. -/
def little_endian.put_u32 (value : Nat) (buffer : Nat → Nat) : Nat → Nat :=
  fun i =>
    if i = 0 then value &&& 0xFF
    else if i = 1 then value >>> 8 &&& 0xFF
    else if i = 2 then value >>> 16 &&& 0xFF
    else if i = 3 then value >>> 24 &&& 0xFF
    else buffer i

/-- `little_endian::get<i32>`: delegates to `get<u32>`, converting the result
to `int32_t`. -/
def little_endian.get_i32 (buffer : Nat → Nat) : Int :=
  toSigned 32 (little_endian.get_u32 buffer)

/-- `little_endian::put<i32>`: delegates to `put<u32>`, converting the value
to `uint32_t`. -/
def little_endian.put_i32 (value : Int) (buffer : Nat → Nat) : Nat → Nat :=
  little_endian.put_u32 (toUnsigned 32 value) buffer

/-- `little_endian::get<u40>`: or of five shifted bytes in a `uint64_t`. -/
def little_endian.get_u40 (buffer : Nat → Nat) : Nat :=
  (buffer 4 <<< 32 ||| buffer 3 <<< 24 ||| buffer 2 <<< 16 |||
   buffer 1 <<< 8 ||| buffer 0) % 2 ^ 64

/-- `little_endian::put<u40>`: five byte stores `value >> 8k & 0xFF`. -/
def little_endian.put_u40 (value : Nat) (buffer : Nat → Nat) : Nat → Nat :=
  fun i =>
    if i = 0 then value &&& 0xFF
    else if i = 1 then value >>> 8 &&& 0xFF
    else if i = 2 then value >>> 16 &&& 0xFF
    else if i = 3 then value >>> 24 &&& 0xFF
    else if i = 4 then value >>> 32 &&& 0xFF
    else buffer i

/-- `little_endian::get<u48>`: or of six shifted bytes in a `uint64_t`. -/
def little_endian.get_u48 (buffer : Nat → Nat) : Nat :=
  (buffer 5 <<< 40 ||| buffer 4 <<< 32 ||| buffer 3 <<< 24 |||
   buffer 2 <<< 16 ||| buffer 1 <<< 8 ||| buffer 0) % 2 ^ 64

/-- `little_endian::put<u48>`: six byte stores `value >> 8k & 0xFF`. -/
def little_endian.put_u48 (value : Nat) (buffer : Nat → Nat) : Nat → Nat :=
  fun i =>
    if i = 0 then value &&& 0xFF
    else if i = 1 then value >>> 8 &&& 0xFF
    else if i = 2 then value >>> 16 &&& 0xFF
    else if i = 3 then value >>> 24 &&& 0xFF
    else if i = 4 then value >>> 32 &&& 0xFF
    else if i = 5 then value >>> 40 &&& 0xFF
    else buffer i

/-- `little_endian::get<u56>`: or of seven shifted bytes in a `uint64_t`. -/
def little_endian.get_u56 (buffer : Nat → Nat) : Nat :=
  (buffer 6 <<< 48 ||| buffer 5 <<< 40 ||| buffer 4 <<< 32 |||
   buffer 3 <<< 24 ||| buffer 2 <<< 16 ||| buffer 1 <<< 8 ||| buffer 0) % 2 ^ 64

/-- `little_endian::put<u56>`: seven byte stores `value >> 8k & 0xFF`. -/
def little_endian.put_u56 (value : Nat) (buffer : Nat → Nat) : Nat → Nat :=
  fun i =>
    if i = 0 then value &&& 0xFF
    else if i = 1 then value >>> 8 &&& 0xFF
    else if i = 2 then value >>> 16 &&& 0xFF
    else if i = 3 then value >>> 24 &&& 0xFF
    else if i = 4 then value >>> 32 &&& 0xFF
    else if i = 5 then value >>> 40 &&& 0xFF
    else if i = 6 then value >>> 48 &&& 0xFF
    else buffer i

/-- `little_endian::get<u64>`: or of eight shifted bytes in a `uint64_t`. -/
def little_endian.get_u64 (buffer : Nat → Nat) : Nat :=
  (buffer 7 <<< 56 ||| buffer 6 <<< 48 ||| buffer 5 <<< 40 |||
   buffer 4 <<< 32 ||| buffer 3 <<< 24 ||| buffer 2 <<< 16 |||
   buffer 1 <<< 8 ||| buffer 0) % 2 ^ 64

/-- `little_endian::put<u64>`: eight byte stores `value >> 8k & 0xFF`. -/
def little_endian.put_u64 (value : Nat) (buffer : Nat → Nat) : Nat → Nat :=
  fun i =>
    if i = 0 then value &&& 0xFF
    else if i = 1 then value >>> 8 &&& 0xFF
    else if i = 2 then value >>> 16 &&& 0xFF
    else if i = 3 then value >>> 24 &&& 0xFF
    else if i = 4 then value >>> 32 &&& 0xFF
    else if i = 5 then value >>> 40 &&& 0xFF
    else if i = 6 then value >>> 48 &&& 0xFF
    else if i = 7 then value >>> 56 &&& 0xFF
    else buffer i

/-- `little_endian::get<i64>`: delegates to `get<u64>`, converting the result
to `int64_t`. -/
def little_endian.get_i64 (buffer : Nat → Nat) : Int :=
  toSigned 64 (little_endian.get_u64 buffer)

/-- `little_endian::put<i64>`: delegates to `put<u64>`, converting the value
to `uint64_t`. -/
def little_endian.put_i64 (value : Int) (buffer : Nat → Nat) : Nat → Nat :=
  little_endian.put_u64 (toUnsigned 64 value) buffer

/- Helper lemmas about bit operations on natural numbers. -/

lemma and_255_eq (x : Nat) : x &&& 255 = x % 256 := by
  have h := Nat.and_pow_two_sub_one_eq_mod x 8
  norm_num at h
  exact h

lemma lor_eq_add (x y k : Nat) (hx : x % 2 ^ k = 0) (hy : y < 2 ^ k) :
    x ||| y = x + y := by
  obtain ⟨a, ha⟩ := Nat.dvd_of_mod_eq_zero hx
  subst ha
  exact (Nat.mul_add_lt_is_or hy a).symm

lemma lor_bytes2 (c1 c0 : Nat) (h0 : c0 < 256) :
    c1 * 2 ^ 8 ||| c0 = c1 * 2 ^ 8 + c0 :=
  lor_eq_add _ _ 8 (by omega) (by omega)

lemma lor_bytes3 (c2 c1 c0 : Nat) (h1 : c1 < 256) (h0 : c0 < 256) :
    c2 * 2 ^ 16 ||| c1 * 2 ^ 8 ||| c0 = c2 * 2 ^ 16 + c1 * 2 ^ 8 + c0 := by
  have e1 : c2 * 2 ^ 16 ||| c1 * 2 ^ 8 = c2 * 2 ^ 16 + c1 * 2 ^ 8 :=
    lor_eq_add _ _ 16 (by omega) (by omega)
  rw [e1]
  exact lor_eq_add _ _ 8 (by omega) (by omega)

lemma lor_bytes4 (c3 c2 c1 c0 : Nat) (h2 : c2 < 256) (h1 : c1 < 256)
    (h0 : c0 < 256) :
    c3 * 2 ^ 24 ||| c2 * 2 ^ 16 ||| c1 * 2 ^ 8 ||| c0 =
      c3 * 2 ^ 24 + c2 * 2 ^ 16 + c1 * 2 ^ 8 + c0 := by
  have e1 : c3 * 2 ^ 24 ||| c2 * 2 ^ 16 = c3 * 2 ^ 24 + c2 * 2 ^ 16 :=
    lor_eq_add _ _ 24 (by omega) (by omega)
  rw [e1]
  have e2 : c3 * 2 ^ 24 + c2 * 2 ^ 16 ||| c1 * 2 ^ 8 =
      c3 * 2 ^ 24 + c2 * 2 ^ 16 + c1 * 2 ^ 8 :=
    lor_eq_add _ _ 16 (by omega) (by omega)
  rw [e2]
  exact lor_eq_add _ _ 8 (by omega) (by omega)

lemma lor_bytes5 (c4 c3 c2 c1 c0 : Nat) (h3 : c3 < 256) (h2 : c2 < 256)
    (h1 : c1 < 256) (h0 : c0 < 256) :
    c4 * 2 ^ 32 ||| c3 * 2 ^ 24 ||| c2 * 2 ^ 16 ||| c1 * 2 ^ 8 ||| c0 =
      c4 * 2 ^ 32 + c3 * 2 ^ 24 + c2 * 2 ^ 16 + c1 * 2 ^ 8 + c0 := by
  have e1 : c4 * 2 ^ 32 ||| c3 * 2 ^ 24 = c4 * 2 ^ 32 + c3 * 2 ^ 24 :=
    lor_eq_add _ _ 32 (by omega) (by omega)
  rw [e1]
  have e2 : c4 * 2 ^ 32 + c3 * 2 ^ 24 ||| c2 * 2 ^ 16 =
      c4 * 2 ^ 32 + c3 * 2 ^ 24 + c2 * 2 ^ 16 :=
    lor_eq_add _ _ 24 (by omega) (by omega)
  rw [e2]
  have e3 : c4 * 2 ^ 32 + c3 * 2 ^ 24 + c2 * 2 ^ 16 ||| c1 * 2 ^ 8 =
      c4 * 2 ^ 32 + c3 * 2 ^ 24 + c2 * 2 ^ 16 + c1 * 2 ^ 8 :=
    lor_eq_add _ _ 16 (by omega) (by omega)
  rw [e3]
  exact lor_eq_add _ _ 8 (by omega) (by omega)

lemma lor_bytes6 (c5 c4 c3 c2 c1 c0 : Nat) (h4 : c4 < 256) (h3 : c3 < 256)
    (h2 : c2 < 256) (h1 : c1 < 256) (h0 : c0 < 256) :
    c5 * 2 ^ 40 ||| c4 * 2 ^ 32 ||| c3 * 2 ^ 24 ||| c2 * 2 ^ 16 |||
      c1 * 2 ^ 8 ||| c0 =
      c5 * 2 ^ 40 + c4 * 2 ^ 32 + c3 * 2 ^ 24 + c2 * 2 ^ 16 +
      c1 * 2 ^ 8 + c0 := by
  have e1 : c5 * 2 ^ 40 ||| c4 * 2 ^ 32 = c5 * 2 ^ 40 + c4 * 2 ^ 32 :=
    lor_eq_add _ _ 40 (by omega) (by omega)
  rw [e1]
  have e2 : c5 * 2 ^ 40 + c4 * 2 ^ 32 ||| c3 * 2 ^ 24 =
      c5 * 2 ^ 40 + c4 * 2 ^ 32 + c3 * 2 ^ 24 :=
    lor_eq_add _ _ 32 (by omega) (by omega)
  rw [e2]
  have e3 : c5 * 2 ^ 40 + c4 * 2 ^ 32 + c3 * 2 ^ 24 ||| c2 * 2 ^ 16 =
      c5 * 2 ^ 40 + c4 * 2 ^ 32 + c3 * 2 ^ 24 + c2 * 2 ^ 16 :=
    lor_eq_add _ _ 24 (by omega) (by omega)
  rw [e3]
  have e4 : c5 * 2 ^ 40 + c4 * 2 ^ 32 + c3 * 2 ^ 24 + c2 * 2 ^ 16 |||
      c1 * 2 ^ 8 =
      c5 * 2 ^ 40 + c4 * 2 ^ 32 + c3 * 2 ^ 24 + c2 * 2 ^ 16 + c1 * 2 ^ 8 :=
    lor_eq_add _ _ 16 (by omega) (by omega)
  rw [e4]
  exact lor_eq_add _ _ 8 (by omega) (by omega)

lemma lor_bytes7 (c6 c5 c4 c3 c2 c1 c0 : Nat) (h5 : c5 < 256)
    (h4 : c4 < 256) (h3 : c3 < 256) (h2 : c2 < 256) (h1 : c1 < 256)
    (h0 : c0 < 256) :
    c6 * 2 ^ 48 ||| c5 * 2 ^ 40 ||| c4 * 2 ^ 32 ||| c3 * 2 ^ 24 |||
      c2 * 2 ^ 16 ||| c1 * 2 ^ 8 ||| c0 =
      c6 * 2 ^ 48 + c5 * 2 ^ 40 + c4 * 2 ^ 32 + c3 * 2 ^ 24 +
      c2 * 2 ^ 16 + c1 * 2 ^ 8 + c0 := by
  have e1 : c6 * 2 ^ 48 ||| c5 * 2 ^ 40 = c6 * 2 ^ 48 + c5 * 2 ^ 40 :=
    lor_eq_add _ _ 48 (by omega) (by omega)
  rw [e1]
  have e2 : c6 * 2 ^ 48 + c5 * 2 ^ 40 ||| c4 * 2 ^ 32 =
      c6 * 2 ^ 48 + c5 * 2 ^ 40 + c4 * 2 ^ 32 :=
    lor_eq_add _ _ 40 (by omega) (by omega)
  rw [e2]
  have e3 : c6 * 2 ^ 48 + c5 * 2 ^ 40 + c4 * 2 ^ 32 ||| c3 * 2 ^ 24 =
      c6 * 2 ^ 48 + c5 * 2 ^ 40 + c4 * 2 ^ 32 + c3 * 2 ^ 24 :=
    lor_eq_add _ _ 32 (by omega) (by omega)
  rw [e3]
  have e4 : c6 * 2 ^ 48 + c5 * 2 ^ 40 + c4 * 2 ^ 32 + c3 * 2 ^ 24 |||
      c2 * 2 ^ 16 =
      c6 * 2 ^ 48 + c5 * 2 ^ 40 + c4 * 2 ^ 32 + c3 * 2 ^ 24 + c2 * 2 ^ 16 :=
    lor_eq_add _ _ 24 (by omega) (by omega)
  rw [e4]
  have e5 : c6 * 2 ^ 48 + c5 * 2 ^ 40 + c4 * 2 ^ 32 + c3 * 2 ^ 24 +
      c2 * 2 ^ 16 ||| c1 * 2 ^ 8 =
      c6 * 2 ^ 48 + c5 * 2 ^ 40 + c4 * 2 ^ 32 + c3 * 2 ^ 24 +
      c2 * 2 ^ 16 + c1 * 2 ^ 8 :=
    lor_eq_add _ _ 16 (by omega) (by omega)
  rw [e5]
  exact lor_eq_add _ _ 8 (by omega) (by omega)

lemma lor_bytes8 (c7 c6 c5 c4 c3 c2 c1 c0 : Nat) (h6 : c6 < 256)
    (h5 : c5 < 256) (h4 : c4 < 256) (h3 : c3 < 256) (h2 : c2 < 256)
    (h1 : c1 < 256) (h0 : c0 < 256) :
    c7 * 2 ^ 56 ||| c6 * 2 ^ 48 ||| c5 * 2 ^ 40 ||| c4 * 2 ^ 32 |||
      c3 * 2 ^ 24 ||| c2 * 2 ^ 16 ||| c1 * 2 ^ 8 ||| c0 =
      c7 * 2 ^ 56 + c6 * 2 ^ 48 + c5 * 2 ^ 40 + c4 * 2 ^ 32 +
      c3 * 2 ^ 24 + c2 * 2 ^ 16 + c1 * 2 ^ 8 + c0 := by
  have e1 : c7 * 2 ^ 56 ||| c6 * 2 ^ 48 = c7 * 2 ^ 56 + c6 * 2 ^ 48 :=
    lor_eq_add _ _ 56 (by omega) (by omega)
  rw [e1]
  have e2 : c7 * 2 ^ 56 + c6 * 2 ^ 48 ||| c5 * 2 ^ 40 =
      c7 * 2 ^ 56 + c6 * 2 ^ 48 + c5 * 2 ^ 40 :=
    lor_eq_add _ _ 48 (by omega) (by omega)
  rw [e2]
  have e3 : c7 * 2 ^ 56 + c6 * 2 ^ 48 + c5 * 2 ^ 40 ||| c4 * 2 ^ 32 =
      c7 * 2 ^ 56 + c6 * 2 ^ 48 + c5 * 2 ^ 40 + c4 * 2 ^ 32 :=
    lor_eq_add _ _ 40 (by omega) (by omega)
  rw [e3]
  have e4 : c7 * 2 ^ 56 + c6 * 2 ^ 48 + c5 * 2 ^ 40 + c4 * 2 ^ 32 |||
      c3 * 2 ^ 24 =
      c7 * 2 ^ 56 + c6 * 2 ^ 48 + c5 * 2 ^ 40 + c4 * 2 ^ 32 + c3 * 2 ^ 24 :=
    lor_eq_add _ _ 32 (by omega) (by omega)
  rw [e4]
  have e5 : c7 * 2 ^ 56 + c6 * 2 ^ 48 + c5 * 2 ^ 40 + c4 * 2 ^ 32 +
      c3 * 2 ^ 24 ||| c2 * 2 ^ 16 =
      c7 * 2 ^ 56 + c6 * 2 ^ 48 + c5 * 2 ^ 40 + c4 * 2 ^ 32 +
      c3 * 2 ^ 24 + c2 * 2 ^ 16 :=
    lor_eq_add _ _ 24 (by omega) (by omega)
  rw [e5]
  have e6 : c7 * 2 ^ 56 + c6 * 2 ^ 48 + c5 * 2 ^ 40 + c4 * 2 ^ 32 +
      c3 * 2 ^ 24 + c2 * 2 ^ 16 ||| c1 * 2 ^ 8 =
      c7 * 2 ^ 56 + c6 * 2 ^ 48 + c5 * 2 ^ 40 + c4 * 2 ^ 32 +
      c3 * 2 ^ 24 + c2 * 2 ^ 16 + c1 * 2 ^ 8 :=
    lor_eq_add _ _ 16 (by omega) (by omega)
  rw [e6]
  exact lor_eq_add _ _ 8 (by omega) (by omega)

/- Round-trip lemmas for the little-endian codec: `get` after `put` recovers
the value truncated to the declared width, for every container value. -/

lemma le_rt_u8 (v : Nat) (b : Nat → Nat) :
    little_endian.get_u8 (little_endian.put_u8 v b) = v % 2 ^ 8 := rfl

lemma le_rt_u16 (v : Nat) (b : Nat → Nat) :
    little_endian.get_u16 (little_endian.put_u16 v b) = v % 2 ^ 16 := by
  simp only [little_endian.get_u16, little_endian.put_u16, and_255_eq,
    Nat.shiftLeft_eq, Nat.shiftRight_eq_div_pow, Nat.reduceEqDiff, reduceIte]
  rw [lor_bytes2 _ _ (by omega)]
  omega

lemma le_rt_u24 (v : Nat) (b : Nat → Nat) :
    little_endian.get_u24 (little_endian.put_u24 v b) = v % 2 ^ 24 := by
  simp only [little_endian.get_u24, little_endian.put_u24, and_255_eq,
    Nat.shiftLeft_eq, Nat.shiftRight_eq_div_pow, Nat.reduceEqDiff, reduceIte]
  rw [lor_bytes3 _ _ _ (by omega) (by omega)]
  omega

lemma le_rt_u32 (v : Nat) (b : Nat → Nat) :
    little_endian.get_u32 (little_endian.put_u32 v b) = v % 2 ^ 32 := by
  simp only [little_endian.get_u32, little_endian.put_u32, and_255_eq,
    Nat.shiftLeft_eq, Nat.shiftRight_eq_div_pow, Nat.reduceEqDiff, reduceIte]
  rw [lor_bytes4 _ _ _ _ (by omega) (by omega) (by omega)]
  omega

lemma le_rt_u40 (v : Nat) (b : Nat → Nat) :
    little_endian.get_u40 (little_endian.put_u40 v b) = v % 2 ^ 40 := by
  simp only [little_endian.get_u40, little_endian.put_u40, and_255_eq,
    Nat.shiftLeft_eq, Nat.shiftRight_eq_div_pow, Nat.reduceEqDiff, reduceIte]
  rw [lor_bytes5 _ _ _ _ _ (by omega) (by omega) (by omega) (by omega)]
  omega

lemma le_rt_u48 (v : Nat) (b : Nat → Nat) :
    little_endian.get_u48 (little_endian.put_u48 v b) = v % 2 ^ 48 := by
  simp only [little_endian.get_u48, little_endian.put_u48, and_255_eq,
    Nat.shiftLeft_eq, Nat.shiftRight_eq_div_pow, Nat.reduceEqDiff, reduceIte]
  rw [lor_bytes6 _ _ _ _ _ _ (by omega) (by omega) (by omega) (by omega)
    (by omega)]
  omega

lemma le_rt_u56 (v : Nat) (b : Nat → Nat) :
    little_endian.get_u56 (little_endian.put_u56 v b) = v % 2 ^ 56 := by
  simp only [little_endian.get_u56, little_endian.put_u56, and_255_eq,
    Nat.shiftLeft_eq, Nat.shiftRight_eq_div_pow, Nat.reduceEqDiff, reduceIte]
  rw [lor_bytes7 _ _ _ _ _ _ _ (by omega) (by omega) (by omega) (by omega)
    (by omega) (by omega)]
  omega

lemma le_rt_u64 (v : Nat) (b : Nat → Nat) :
    little_endian.get_u64 (little_endian.put_u64 v b) = v % 2 ^ 64 := by
  simp only [little_endian.get_u64, little_endian.put_u64, and_255_eq,
    Nat.shiftLeft_eq, Nat.shiftRight_eq_div_pow, Nat.reduceEqDiff, reduceIte]
  rw [lor_bytes8 _ _ _ _ _ _ _ _ (by omega) (by omega) (by omega) (by omega)
    (by omega) (by omega) (by omega)]
  omega

lemma le_rt_i8 (v : Int) (b : Nat → Nat) (h1 : -2 ^ 7 ≤ v) (h2 : v < 2 ^ 7) :
    little_endian.get_i8 (little_endian.put_i8 v b) = v := by
  simp only [little_endian.get_i8, little_endian.put_i8, le_rt_u8, toSigned,
    toUnsigned]
  split_ifs with h <;> omega

lemma le_rt_i16 (v : Int) (b : Nat → Nat) (h1 : -2 ^ 15 ≤ v)
    (h2 : v < 2 ^ 15) :
    little_endian.get_i16 (little_endian.put_i16 v b) = v := by
  simp only [little_endian.get_i16, little_endian.put_i16, le_rt_u16, toSigned,
    toUnsigned]
  split_ifs with h <;> omega

lemma le_rt_i32 (v : Int) (b : Nat → Nat) (h1 : -2 ^ 31 ≤ v)
    (h2 : v < 2 ^ 31) :
    little_endian.get_i32 (little_endian.put_i32 v b) = v := by
  simp only [little_endian.get_i32, little_endian.put_i32, le_rt_u32, toSigned,
    toUnsigned]
  split_ifs with h <;> omega

lemma le_rt_i64 (v : Int) (b : Nat → Nat) (h1 : -2 ^ 63 ≤ v)
    (h2 : v < 2 ^ 63) :
    little_endian.get_i64 (little_endian.put_i64 v b) = v := by
  simp only [little_endian.get_i64, little_endian.put_i64, le_rt_u64, toSigned,
    toUnsigned]
  split_ifs with h <;> omega

/- The big-endian codec. `big_endian.hpp` is part of this repository but is
not under `src/`, so it is modelled from the spec's byte-order rule:
"most-significant-byte-first: byte at offset 0 holds bits `[width-8, width)`,
…, byte at offset `width/8 - 1` holds bits `[0, 8)`", with values truncated
to the declared width on `put` and zero-extended on `get`, and signed widths
delegating to the unsigned operation of identical width. -/

/-- Modelled from the spec: `big_endian::get<u8>` reads the single byte. -/
def big_endian.get_u8 (buffer : Nat → Nat) : Nat := buffer 0

/-- Modelled from the spec: `big_endian::put<u8>` stores the single byte. -/
def big_endian.put_u8 (value : Nat) (buffer : Nat → Nat) : Nat → Nat :=
  fun i => if i = 0 then value % 2 ^ 8 else buffer i

/-- Modelled from the spec: `big_endian::get<u16>`, byte 0 holds bits
`[8, 16)` and byte 1 holds bits `[0, 8)`. -/
def big_endian.get_u16 (buffer : Nat → Nat) : Nat :=
  buffer 0 % 2 ^ 8 * 2 ^ 8 + buffer 1 % 2 ^ 8

/-- Modelled from the spec: `big_endian::put<u16>`, most significant byte
first. -/
def big_endian.put_u16 (value : Nat) (buffer : Nat → Nat) : Nat → Nat :=
  fun i =>
    if i = 0 then value / 2 ^ 8 % 2 ^ 8
    else if i = 1 then value % 2 ^ 8
    else buffer i

/-- Modelled from the spec: `big_endian::get<u24>`. -/
def big_endian.get_u24 (buffer : Nat → Nat) : Nat :=
  buffer 0 % 2 ^ 8 * 2 ^ 16 + buffer 1 % 2 ^ 8 * 2 ^ 8 + buffer 2 % 2 ^ 8

/-- Modelled from the spec: `big_endian::put<u24>`. -/
def big_endian.put_u24 (value : Nat) (buffer : Nat → Nat) : Nat → Nat :=
  fun i =>
    if i = 0 then value / 2 ^ 16 % 2 ^ 8
    else if i = 1 then value / 2 ^ 8 % 2 ^ 8
    else if i = 2 then value % 2 ^ 8
    else buffer i

/-- Modelled from the spec: `big_endian::get<u32>`. -/
def big_endian.get_u32 (buffer : Nat → Nat) : Nat :=
  buffer 0 % 2 ^ 8 * 2 ^ 24 + buffer 1 % 2 ^ 8 * 2 ^ 16 +
  buffer 2 % 2 ^ 8 * 2 ^ 8 + buffer 3 % 2 ^ 8

/-- Modelled from the spec: `big_endian::put<u32>`. -/
def big_endian.put_u32 (value : Nat) (buffer : Nat → Nat) : Nat → Nat :=
  fun i =>
    if i = 0 then value / 2 ^ 24 % 2 ^ 8
    else if i = 1 then value / 2 ^ 16 % 2 ^ 8
    else if i = 2 then value / 2 ^ 8 % 2 ^ 8
    else if i = 3 then value % 2 ^ 8
    else buffer i

/-- Modelled from the spec: `big_endian::get<u40>`. -/
def big_endian.get_u40 (buffer : Nat → Nat) : Nat :=
  buffer 0 % 2 ^ 8 * 2 ^ 32 + buffer 1 % 2 ^ 8 * 2 ^ 24 +
  buffer 2 % 2 ^ 8 * 2 ^ 16 + buffer 3 % 2 ^ 8 * 2 ^ 8 + buffer 4 % 2 ^ 8

/-- Modelled from the spec: `big_endian::put<u40>`. -/
def big_endian.put_u40 (value : Nat) (buffer : Nat → Nat) : Nat → Nat :=
  fun i =>
    if i = 0 then value / 2 ^ 32 % 2 ^ 8
    else if i = 1 then value / 2 ^ 24 % 2 ^ 8
    else if i = 2 then value / 2 ^ 16 % 2 ^ 8
    else if i = 3 then value / 2 ^ 8 % 2 ^ 8
    else if i = 4 then value % 2 ^ 8
    else buffer i

/-- Modelled from the spec: `big_endian::get<u48>`. -/
def big_endian.get_u48 (buffer : Nat → Nat) : Nat :=
  buffer 0 % 2 ^ 8 * 2 ^ 40 + buffer 1 % 2 ^ 8 * 2 ^ 32 +
  buffer 2 % 2 ^ 8 * 2 ^ 24 + buffer 3 % 2 ^ 8 * 2 ^ 16 +
  buffer 4 % 2 ^ 8 * 2 ^ 8 + buffer 5 % 2 ^ 8

/-- Modelled from the spec: `big_endian::put<u48>`. -/
def big_endian.put_u48 (value : Nat) (buffer : Nat → Nat) : Nat → Nat :=
  fun i =>
    if i = 0 then value / 2 ^ 40 % 2 ^ 8
    else if i = 1 then value / 2 ^ 32 % 2 ^ 8
    else if i = 2 then value / 2 ^ 24 % 2 ^ 8
    else if i = 3 then value / 2 ^ 16 % 2 ^ 8
    else if i = 4 then value / 2 ^ 8 % 2 ^ 8
    else if i = 5 then value % 2 ^ 8
    else buffer i

/-- Modelled from the spec: `big_endian::get<u56>`. -/
def big_endian.get_u56 (buffer : Nat → Nat) : Nat :=
  buffer 0 % 2 ^ 8 * 2 ^ 48 + buffer 1 % 2 ^ 8 * 2 ^ 40 +
  buffer 2 % 2 ^ 8 * 2 ^ 32 + buffer 3 % 2 ^ 8 * 2 ^ 24 +
  buffer 4 % 2 ^ 8 * 2 ^ 16 + buffer 5 % 2 ^ 8 * 2 ^ 8 + buffer 6 % 2 ^ 8

/-- Modelled from the spec: `big_endian::put<u56>`. -/
def big_endian.put_u56 (value : Nat) (buffer : Nat → Nat) : Nat → Nat :=
  fun i =>
    if i = 0 then value / 2 ^ 48 % 2 ^ 8
    else if i = 1 then value / 2 ^ 40 % 2 ^ 8
    else if i = 2 then value / 2 ^ 32 % 2 ^ 8
    else if i = 3 then value / 2 ^ 24 % 2 ^ 8
    else if i = 4 then value / 2 ^ 16 % 2 ^ 8
    else if i = 5 then value / 2 ^ 8 % 2 ^ 8
    else if i = 6 then value % 2 ^ 8
    else buffer i

/-- Modelled from the spec: `big_endian::get<u64>`. -/
def big_endian.get_u64 (buffer : Nat → Nat) : Nat :=
  buffer 0 % 2 ^ 8 * 2 ^ 56 + buffer 1 % 2 ^ 8 * 2 ^ 48 +
  buffer 2 % 2 ^ 8 * 2 ^ 40 + buffer 3 % 2 ^ 8 * 2 ^ 32 +
  buffer 4 % 2 ^ 8 * 2 ^ 24 + buffer 5 % 2 ^ 8 * 2 ^ 16 +
  buffer 6 % 2 ^ 8 * 2 ^ 8 + buffer 7 % 2 ^ 8

/-- Modelled from the spec: `big_endian::put<u64>`. -/
def big_endian.put_u64 (value : Nat) (buffer : Nat → Nat) : Nat → Nat :=
  fun i =>
    if i = 0 then value / 2 ^ 56 % 2 ^ 8
    else if i = 1 then value / 2 ^ 48 % 2 ^ 8
    else if i = 2 then value / 2 ^ 40 % 2 ^ 8
    else if i = 3 then value / 2 ^ 32 % 2 ^ 8
    else if i = 4 then value / 2 ^ 24 % 2 ^ 8
    else if i = 5 then value / 2 ^ 16 % 2 ^ 8
    else if i = 6 then value / 2 ^ 8 % 2 ^ 8
    else if i = 7 then value % 2 ^ 8
    else buffer i

/-- Modelled from the spec: `big_endian::get<i8>` delegates to the unsigned
`get` of identical width, reinterpreting the bit pattern. -/
def big_endian.get_i8 (buffer : Nat → Nat) : Int :=
  toSigned 8 (big_endian.get_u8 buffer)

/-- Modelled from the spec: `big_endian::put<i8>` delegates to the unsigned
`put` of identical width on the two's-complement bit pattern. -/
def big_endian.put_i8 (value : Int) (buffer : Nat → Nat) : Nat → Nat :=
  big_endian.put_u8 (toUnsigned 8 value) buffer

/-- Modelled from the spec: `big_endian::get<i16>` delegates to `get<u16>`. -/
def big_endian.get_i16 (buffer : Nat → Nat) : Int :=
  toSigned 16 (big_endian.get_u16 buffer)

/-- Modelled from the spec: `big_endian::put<i16>` delegates to `put<u16>`. -/
def big_endian.put_i16 (value : Int) (buffer : Nat → Nat) : Nat → Nat :=
  big_endian.put_u16 (toUnsigned 16 value) buffer

/-- Modelled from the spec: `big_endian::get<i32>` delegates to `get<u32>`. -/
def big_endian.get_i32 (buffer : Nat → Nat) : Int :=
  toSigned 32 (big_endian.get_u32 buffer)

/-- Modelled from the spec: `big_endian::put<i32>` delegates to `put<u32>`. -/
def big_endian.put_i32 (value : Int) (buffer : Nat → Nat) : Nat → Nat :=
  big_endian.put_u32 (toUnsigned 32 value) buffer

/-- Modelled from the spec: `big_endian::get<i64>` delegates to `get<u64>`. -/
def big_endian.get_i64 (buffer : Nat → Nat) : Int :=
  toSigned 64 (big_endian.get_u64 buffer)

/-- Modelled from the spec: `big_endian::put<i64>` delegates to `put<u64>`. -/
def big_endian.put_i64 (value : Int) (buffer : Nat → Nat) : Nat → Nat :=
  big_endian.put_u64 (toUnsigned 64 value) buffer

/- Round-trip lemmas for the big-endian codec. -/

lemma be_rt_u8 (v : Nat) (b : Nat → Nat) :
    big_endian.get_u8 (big_endian.put_u8 v b) = v % 2 ^ 8 := rfl

lemma be_rt_u16 (v : Nat) (b : Nat → Nat) :
    big_endian.get_u16 (big_endian.put_u16 v b) = v % 2 ^ 16 := by
  simp only [big_endian.get_u16, big_endian.put_u16, Nat.reduceEqDiff,
    reduceIte]
  omega

lemma be_rt_u24 (v : Nat) (b : Nat → Nat) :
    big_endian.get_u24 (big_endian.put_u24 v b) = v % 2 ^ 24 := by
  simp only [big_endian.get_u24, big_endian.put_u24, Nat.reduceEqDiff,
    reduceIte]
  omega

lemma be_rt_u32 (v : Nat) (b : Nat → Nat) :
    big_endian.get_u32 (big_endian.put_u32 v b) = v % 2 ^ 32 := by
  simp only [big_endian.get_u32, big_endian.put_u32, Nat.reduceEqDiff,
    reduceIte]
  omega

lemma be_rt_u40 (v : Nat) (b : Nat → Nat) :
    big_endian.get_u40 (big_endian.put_u40 v b) = v % 2 ^ 40 := by
  simp only [big_endian.get_u40, big_endian.put_u40, Nat.reduceEqDiff,
    reduceIte]
  omega

lemma be_rt_u48 (v : Nat) (b : Nat → Nat) :
    big_endian.get_u48 (big_endian.put_u48 v b) = v % 2 ^ 48 := by
  simp only [big_endian.get_u48, big_endian.put_u48, Nat.reduceEqDiff,
    reduceIte]
  omega

set_option maxHeartbeats 1600000 in
lemma be_rt_u56 (v : Nat) (b : Nat → Nat) :
    big_endian.get_u56 (big_endian.put_u56 v b) = v % 2 ^ 56 := by
  simp only [big_endian.get_u56, big_endian.put_u56, Nat.reduceEqDiff,
    reduceIte]
  omega

set_option maxHeartbeats 8000000 in
lemma be_rt_u64 (v : Nat) (b : Nat → Nat) :
    big_endian.get_u64 (big_endian.put_u64 v b) = v % 2 ^ 64 := by
  simp only [big_endian.get_u64, big_endian.put_u64, Nat.reduceEqDiff,
    reduceIte]
  omega

lemma be_rt_i8 (v : Int) (b : Nat → Nat) (h1 : -2 ^ 7 ≤ v) (h2 : v < 2 ^ 7) :
    big_endian.get_i8 (big_endian.put_i8 v b) = v := by
  simp only [big_endian.get_i8, big_endian.put_i8, be_rt_u8, toSigned,
    toUnsigned]
  split_ifs with h <;> omega

lemma be_rt_i16 (v : Int) (b : Nat → Nat) (h1 : -2 ^ 15 ≤ v)
    (h2 : v < 2 ^ 15) :
    big_endian.get_i16 (big_endian.put_i16 v b) = v := by
  simp only [big_endian.get_i16, big_endian.put_i16, be_rt_u16, toSigned,
    toUnsigned]
  split_ifs with h <;> omega

lemma be_rt_i32 (v : Int) (b : Nat → Nat) (h1 : -2 ^ 31 ≤ v)
    (h2 : v < 2 ^ 31) :
    big_endian.get_i32 (big_endian.put_i32 v b) = v := by
  simp only [big_endian.get_i32, big_endian.put_i32, be_rt_u32, toSigned,
    toUnsigned]
  split_ifs with h <;> omega

lemma be_rt_i64 (v : Int) (b : Nat → Nat) (h1 : -2 ^ 63 ≤ v)
    (h2 : v < 2 ^ 63) :
    big_endian.get_i64 (big_endian.put_i64 v b) = v := by
  simp only [big_endian.get_i64, big_endian.put_i64, be_rt_u64, toSigned,
    toUnsigned]
  split_ifs with h <;> omega

/-- Modelled from the spec: `storage::const_storage` (the `storage` library is
not under `src/`) is a borrowed buffer view carrying a data pointer and a
size. -/
structure const_storage where
  m_data : Nat → Nat
  m_size : Nat

/-- State of `endian_stream_reader`: buffer pointer, total size, current
position. -/
structure endian_stream_reader where
  m_buffer : Nat → Nat
  m_size : Nat
  m_position : Nat

/-- Constructor `endian_stream_reader(uint8_t* buffer, uint32_t size)`:
asserts the size is nonzero (a null buffer is not representable in the
model) and starts at position 0. -/
def endian_stream_reader.mk_raw (buffer : Nat → Nat) (size : Nat) :
    Option endian_stream_reader :=
  if size ≠ 0 then some ⟨buffer, size, 0⟩ else none

/-- Constructor `endian_stream_reader(const storage::const_storage&)`: takes
buffer and size from the storage view, asserts the size is nonzero, starts
at position 0. -/
def endian_stream_reader.mk_storage (storage : const_storage) :
    Option endian_stream_reader :=
  if storage.m_size ≠ 0 then some ⟨storage.m_data, storage.m_size, 0⟩ else none

/-- `endian_stream_reader::read<ValueType>(ValueType&)`: asserts
`m_size >= m_position + sizeof(ValueType)`, decodes with the endian type's
`get<ValueType>` at `&m_buffer[m_position]`, advances the position by
`sizeof(ValueType)`. The codec is passed as the function `g` and the byte
count `sizeof(ValueType)` as `n`. -/
def endian_stream_reader.read (s : endian_stream_reader)
    (g : (Nat → Nat) → Nat) (n : Nat) :
    Option (Nat × endian_stream_reader) :=
  if s.m_size ≥ s.m_position + n then
    some (g (fun i => s.m_buffer (s.m_position + i)),
          ⟨s.m_buffer, s.m_size, s.m_position + n⟩)
  else none

/-- `endian_stream_reader::read(const storage::const_storage&)`: asserts
`m_size >= m_position + storage.m_size`, copies `storage.m_size` bytes from
`&m_buffer[m_position]` into `storage.m_data`, advances the position. The
result is the destination's contents after the copy, together with the new
reader state. -/
def endian_stream_reader.read_storage (s : endian_stream_reader)
    (storage : const_storage) :
    Option ((Nat → Nat) × endian_stream_reader) :=
  if s.m_size ≥ s.m_position + storage.m_size then
    some (fun i =>
            if i < storage.m_size then s.m_buffer (s.m_position + i)
            else storage.m_data i,
          ⟨s.m_buffer, s.m_size, s.m_position + storage.m_size⟩)
  else none

/-- `endian_stream_reader::size()`. -/
def endian_stream_reader.size (s : endian_stream_reader) : Nat := s.m_size

/-- `endian_stream_reader::position()`. -/
def endian_stream_reader.position (s : endian_stream_reader) : Nat :=
  s.m_position

/-- `endian_stream_reader::seek(uint32_t)`: asserts `new_position <= m_size`,
then sets the position. -/
def endian_stream_reader.seek (s : endian_stream_reader)
    (new_position : Nat) : Option endian_stream_reader :=
  if new_position ≤ s.m_size then
    some ⟨s.m_buffer, s.m_size, new_position⟩
  else none

/-- The reader invariant: the position never exceeds the size (it is a `Nat`,
so `0 ≤ position` holds by type). -/
def endian_stream_reader.inv (s : endian_stream_reader) : Prop :=
  s.m_position ≤ s.m_size

/-- One stream-reader operation: a typed read (codec plus byte count), a raw
read into a destination storage, or a seek. -/
inductive reader_op where
  | typed : ((Nat → Nat) → Nat) → Nat → reader_op
  | raw : const_storage → reader_op
  | seekTo : Nat → reader_op

/-- Apply one operation to a reader state, keeping only the state. -/
def reader_op.apply (op : reader_op) (s : endian_stream_reader) :
    Option endian_stream_reader :=
  match op with
  | .typed g n => (s.read g n).map Prod.snd
  | .raw st => (s.read_storage st).map Prod.snd
  | .seekTo n => s.seek n

/-- Run a sequence of reader operations from a starting state. -/
def run_ops (ops : List reader_op) (s : endian_stream_reader) :
    Option endian_stream_reader :=
  match ops with
  | [] => some s
  | op :: rest => match op.apply s with
    | some s2 => run_ops rest s2
    | none => none

/-- C2: `put` produces exactly the spec's literal byte vectors: unsigned
16-bit `0x1234` least-significant-byte-first yields `[0x34, 0x12]` and
most-significant-byte-first yields `[0x12, 0x34]`; unsigned 24-bit `0xABCDEF`
least-significant-byte-first yields `[0xEF, 0xCD, 0xAB]`; unsigned 32-bit
`0x01020304` least-significant-byte-first yields `[0x04, 0x03, 0x02, 0x01]`. -/
theorem c2_put_literal_vectors :
    (little_endian.put_u16 0x1234 zeroBuf 0 = 0x34 ∧
     little_endian.put_u16 0x1234 zeroBuf 1 = 0x12) ∧
    (big_endian.put_u16 0x1234 zeroBuf 0 = 0x12 ∧
     big_endian.put_u16 0x1234 zeroBuf 1 = 0x34) ∧
    (little_endian.put_u24 0xABCDEF zeroBuf 0 = 0xEF ∧
     little_endian.put_u24 0xABCDEF zeroBuf 1 = 0xCD ∧
     little_endian.put_u24 0xABCDEF zeroBuf 2 = 0xAB) ∧
    (little_endian.put_u32 0x01020304 zeroBuf 0 = 0x04 ∧
     little_endian.put_u32 0x01020304 zeroBuf 1 = 0x03 ∧
     little_endian.put_u32 0x01020304 zeroBuf 2 = 0x02 ∧
     little_endian.put_u32 0x01020304 zeroBuf 3 = 0x01) := by
  decide

/-- C3: on a cursor state satisfying the invariant with
`size - position >= sizeof(T)`, the typed read succeeds, returns the codec's
`get` applied to the buffer at the current position, and the new position is
the old position plus `sizeof(T)`. -/
theorem c3_typed_read (s : endian_stream_reader) (g : (Nat → Nat) → Nat)
    (n : Nat) (hinv : s.inv) (h : n ≤ s.m_size - s.m_position) :
    s.read g n =
      some (g (fun i => s.m_buffer (s.m_position + i)),
            ⟨s.m_buffer, s.m_size, s.m_position + n⟩) := by
  have hc : s.m_size ≥ s.m_position + n := by
    unfold endian_stream_reader.inv at hinv
    omega
  simp [endian_stream_reader.read, hc]

theorem c3_typed_read_witness :
    (⟨zeroBuf, 4, 0⟩ : endian_stream_reader).inv ∧
    2 ≤ 4 - 0 ∧
    (⟨zeroBuf, 4, 0⟩ : endian_stream_reader).read little_endian.get_u16 2 =
      some (little_endian.get_u16 (fun i => zeroBuf (0 + i)),
            ⟨zeroBuf, 4, 0 + 2⟩) :=
  ⟨Nat.zero_le 4, by decide,
   c3_typed_read ⟨zeroBuf, 4, 0⟩ little_endian.get_u16 2 (Nat.zero_le 4)
     (by decide)⟩

/-- C4: a typed read faults (returns `none`) exactly when
`size - position < sizeof(T)`; in particular a cursor constructed with
size 4 faults on a 64-bit read (8 bytes) instead of reading out of bounds
or returning a truncated value. -/
theorem c4_read_bounds :
    (∀ (s : endian_stream_reader) (g : (Nat → Nat) → Nat) (n : Nat),
        s.inv → (s.read g n = none ↔ s.m_size - s.m_position < n)) ∧
    (∀ (buffer : Nat → Nat) (r : endian_stream_reader),
        endian_stream_reader.mk_raw buffer 4 = some r →
        r.read little_endian.get_u64 8 = none) := by
  constructor
  · intro s g n hinv
    unfold endian_stream_reader.inv at hinv
    unfold endian_stream_reader.read
    by_cases h : s.m_size ≥ s.m_position + n
    · rw [if_pos h]
      simp
      omega
    · rw [if_neg h]
      simp
      omega
  · intro buffer r hr
    have hr2 : r = ⟨buffer, 4, 0⟩ := by
      unfold endian_stream_reader.mk_raw at hr
      simp at hr
      exact hr.symm
    subst hr2
    unfold endian_stream_reader.read
    rw [if_neg (show ¬(4 ≥ 0 + 8) by omega)]

theorem c4_read_bounds_witness :
    (⟨zeroBuf, 4, 0⟩ : endian_stream_reader).inv ∧
    ((⟨zeroBuf, 4, 0⟩ : endian_stream_reader).read little_endian.get_u64 8 =
        none ↔ 4 - 0 < 8) ∧
    (⟨zeroBuf, 4, 0⟩ : endian_stream_reader).read little_endian.get_u64 8 =
      none :=
  ⟨Nat.zero_le 4,
   c4_read_bounds.1 ⟨zeroBuf, 4, 0⟩ little_endian.get_u64 8 (Nat.zero_le 4),
   c4_read_bounds.2 zeroBuf ⟨zeroBuf, 4, 0⟩ rfl⟩

/-- C8: `seek(n)` succeeds for every `n ≤ size` and a subsequent
`position()` returns `n`; `seek` faults exactly when the requested position
exceeds the size; in particular `seek(size + 1)` faults. -/
theorem c8_seek :
    (∀ (s : endian_stream_reader) (n : Nat),
        n ≤ s.m_size → ∃ s2, s.seek n = some s2 ∧ s2.position = n) ∧
    (∀ (s : endian_stream_reader) (n : Nat),
        s.seek n = none ↔ s.m_size < n) ∧
    (∀ s : endian_stream_reader, s.seek (s.m_size + 1) = none) := by
  refine ⟨?_, ?_, ?_⟩
  · intro s n h
    exact ⟨⟨s.m_buffer, s.m_size, n⟩, by simp [endian_stream_reader.seek, h],
           rfl⟩
  · intro s n
    unfold endian_stream_reader.seek
    by_cases h : n ≤ s.m_size
    · rw [if_pos h]
      simp
      omega
    · rw [if_neg h]
      simp
      omega
  · intro s
    unfold endian_stream_reader.seek
    rw [if_neg (by omega)]

theorem c8_seek_witness :
    3 ≤ 4 ∧
    (∃ s2, (⟨zeroBuf, 4, 0⟩ : endian_stream_reader).seek 3 = some s2 ∧
      s2.position = 3) ∧
    (⟨zeroBuf, 4, 0⟩ : endian_stream_reader).seek (4 + 1) = none :=
  ⟨by decide, c8_seek.1 ⟨zeroBuf, 4, 0⟩ 3 (by decide),
   c8_seek.2.2 ⟨zeroBuf, 4, 0⟩⟩

/-- C9: a freshly constructed cursor has `position() = 0` under either
constructor, before any read or seek. -/
theorem c9_fresh_position :
    (∀ (buffer : Nat → Nat) (size : Nat) (r : endian_stream_reader),
        endian_stream_reader.mk_raw buffer size = some r →
        r.position = 0) ∧
    (∀ (st : const_storage) (r : endian_stream_reader),
        endian_stream_reader.mk_storage st = some r → r.position = 0) := by
  constructor
  · intro buffer size r h
    unfold endian_stream_reader.mk_raw at h
    split_ifs at h with hc
    injection h with h
    rw [← h]
    rfl
  · intro st r h
    unfold endian_stream_reader.mk_storage at h
    split_ifs at h with hc
    injection h with h
    rw [← h]
    rfl

theorem c9_fresh_position_witness :
    endian_stream_reader.mk_raw zeroBuf 1 =
      some ⟨zeroBuf, 1, 0⟩ ∧
    (⟨zeroBuf, 1, 0⟩ : endian_stream_reader).position = 0 :=
  ⟨rfl, c9_fresh_position.1 zeroBuf 1 ⟨zeroBuf, 1, 0⟩ rfl⟩

/-- C5: the cursor invariant `position ≤ size` (with `0 ≤ position` by the
`Nat` type) holds after construction and is preserved by every successful
typed read, raw read and seek; seek sets exactly the requested position,
never a clamped one. -/
theorem c5_invariant :
    (∀ (buffer : Nat → Nat) (size : Nat) (r : endian_stream_reader),
        endian_stream_reader.mk_raw buffer size = some r → r.inv) ∧
    (∀ (st : const_storage) (r : endian_stream_reader),
        endian_stream_reader.mk_storage st = some r → r.inv) ∧
    (∀ (s : endian_stream_reader) (g : (Nat → Nat) → Nat) (n v : Nat)
        (s2 : endian_stream_reader),
        s.read g n = some (v, s2) → s2.inv) ∧
    (∀ (s : endian_stream_reader) (st : const_storage) (d : Nat → Nat)
        (s2 : endian_stream_reader),
        s.read_storage st = some (d, s2) → s2.inv) ∧
    (∀ (s : endian_stream_reader) (n : Nat) (s2 : endian_stream_reader),
        s.seek n = some s2 → s2.inv ∧ s2.m_position = n) := by
  refine ⟨?_, ?_, ?_, ?_, ?_⟩
  · intro buffer size r h
    unfold endian_stream_reader.mk_raw at h
    split_ifs at h with hc
    injection h with h
    rw [← h]
    exact Nat.zero_le _
  · intro st r h
    unfold endian_stream_reader.mk_storage at h
    split_ifs at h with hc
    injection h with h
    rw [← h]
    exact Nat.zero_le _
  · intro s g n v s2 h
    unfold endian_stream_reader.read at h
    split_ifs at h with hc
    simp only [Option.some.injEq, Prod.mk.injEq] at h
    obtain ⟨h1, h2⟩ := h
    rw [← h2]
    exact hc
  · intro s st d s2 h
    unfold endian_stream_reader.read_storage at h
    split_ifs at h with hc
    simp only [Option.some.injEq, Prod.mk.injEq] at h
    obtain ⟨h1, h2⟩ := h
    rw [← h2]
    exact hc
  · intro s n s2 h
    unfold endian_stream_reader.seek at h
    split_ifs at h with hc
    injection h with h
    rw [← h]
    exact ⟨hc, rfl⟩

theorem c5_invariant_witness :
    endian_stream_reader.mk_raw zeroBuf 4 = some ⟨zeroBuf, 4, 0⟩ ∧
    (⟨zeroBuf, 4, 0⟩ : endian_stream_reader).inv ∧
    ((⟨zeroBuf, 4, 0⟩ : endian_stream_reader).seek 2 =
      some ⟨zeroBuf, 4, 2⟩ ∧
     (⟨zeroBuf, 4, 2⟩ : endian_stream_reader).inv ∧
     (⟨zeroBuf, 4, 2⟩ : endian_stream_reader).m_position = 2) :=
  ⟨rfl, c5_invariant.1 zeroBuf 4 ⟨zeroBuf, 4, 0⟩ rfl,
   rfl, c5_invariant.2.2.2.2 ⟨zeroBuf, 4, 0⟩ 2 ⟨zeroBuf, 4, 2⟩ rfl⟩

lemma reader_op.apply_buffer (op : reader_op) (s s2 : endian_stream_reader)
    (h : op.apply s = some s2) : s2.m_buffer = s.m_buffer := by
  cases op with
  | typed g n =>
    simp only [reader_op.apply, endian_stream_reader.read] at h
    split_ifs at h with hc
    · simp only [Option.map_some', Option.some.injEq] at h
      rw [← h]
    · simp at h
  | raw st =>
    simp only [reader_op.apply, endian_stream_reader.read_storage] at h
    split_ifs at h with hc
    · simp only [Option.map_some', Option.some.injEq] at h
      rw [← h]
    · simp at h
  | seekTo n =>
    simp only [reader_op.apply, endian_stream_reader.seek] at h
    split_ifs at h with hc
    injection h with h
    rw [← h]

/-- C10: no sequence of reader operations (typed reads, raw reads, seeks —
`size` and `position` are pure) ever changes the underlying buffer, and a raw
read writes only into the caller-supplied destination (cells at or beyond the
destination's length are untouched). -/
theorem c10_frame :
    (∀ (ops : List reader_op) (s s2 : endian_stream_reader),
        run_ops ops s = some s2 → s2.m_buffer = s.m_buffer) ∧
    (∀ (s : endian_stream_reader) (st : const_storage) (d : Nat → Nat)
        (s2 : endian_stream_reader),
        s.read_storage st = some (d, s2) →
        (∀ i, st.m_size ≤ i → d i = st.m_data i) ∧
        s2.m_buffer = s.m_buffer) := by
  constructor
  · intro ops
    induction ops with
    | nil =>
      intro s s2 h
      unfold run_ops at h
      injection h with h
      rw [h]
    | cons op rest ih =>
      intro s s2 h
      unfold run_ops at h
      cases hap : op.apply s with
      | none => rw [hap] at h; exact absurd h (by simp)
      | some s1 =>
        rw [hap] at h
        rw [ih s1 s2 h, reader_op.apply_buffer op s s1 hap]
  · intro s st d s2 h
    unfold endian_stream_reader.read_storage at h
    split_ifs at h with hc
    simp only [Option.some.injEq, Prod.mk.injEq] at h
    obtain ⟨h1, h2⟩ := h
    refine ⟨?_, by rw [← h2]⟩
    intro i hi
    subst h1
    show (if i < st.m_size then s.m_buffer (s.m_position + i)
          else st.m_data i) = st.m_data i
    rw [if_neg (by omega)]

theorem c10_frame_witness :
    run_ops [reader_op.seekTo 2, reader_op.typed little_endian.get_u16 2]
        ⟨zeroBuf, 4, 0⟩ = some ⟨zeroBuf, 4, 4⟩ ∧
    (⟨zeroBuf, 4, 4⟩ : endian_stream_reader).m_buffer =
      (⟨zeroBuf, 4, 0⟩ : endian_stream_reader).m_buffer :=
  ⟨rfl,
   c10_frame.1 [reader_op.seekTo 2, reader_op.typed little_endian.get_u16 2]
     ⟨zeroBuf, 4, 0⟩ ⟨zeroBuf, 4, 4⟩ rfl⟩

/- Zero-extension bounds for `get` on byte buffers. -/

lemma zeroBuf_bytes : isByteBuffer zeroBuf := by
  intro i
  show (0 : Nat) < 256
  decide

lemma le_get_u8_lt (b : Nat → Nat) (hb : isByteBuffer b) :
    little_endian.get_u8 b < 2 ^ 8 := hb 0

lemma le_get_u16_lt (b : Nat → Nat) (hb : isByteBuffer b) :
    little_endian.get_u16 b < 2 ^ 16 := by
  unfold little_endian.get_u16
  omega

lemma le_get_u24_lt (b : Nat → Nat) (hb : isByteBuffer b) :
    little_endian.get_u24 b < 2 ^ 24 := by
  unfold little_endian.get_u24
  simp only [Nat.shiftLeft_eq]
  rw [lor_bytes3 (b 2) (b 1) (b 0) (hb 1) (hb 0)]
  have h0 := hb 0
  have h1 := hb 1
  have h2 := hb 2
  omega

lemma le_get_u32_lt (b : Nat → Nat) (hb : isByteBuffer b) :
    little_endian.get_u32 b < 2 ^ 32 := by
  unfold little_endian.get_u32
  omega

lemma le_get_u40_lt (b : Nat → Nat) (hb : isByteBuffer b) :
    little_endian.get_u40 b < 2 ^ 40 := by
  unfold little_endian.get_u40
  simp only [Nat.shiftLeft_eq]
  rw [lor_bytes5 (b 4) (b 3) (b 2) (b 1) (b 0) (hb 3) (hb 2) (hb 1) (hb 0)]
  have h0 := hb 0
  have h1 := hb 1
  have h2 := hb 2
  have h3 := hb 3
  have h4 := hb 4
  omega

lemma le_get_u48_lt (b : Nat → Nat) (hb : isByteBuffer b) :
    little_endian.get_u48 b < 2 ^ 48 := by
  unfold little_endian.get_u48
  simp only [Nat.shiftLeft_eq]
  rw [lor_bytes6 (b 5) (b 4) (b 3) (b 2) (b 1) (b 0) (hb 4) (hb 3) (hb 2)
    (hb 1) (hb 0)]
  have h0 := hb 0
  have h1 := hb 1
  have h2 := hb 2
  have h3 := hb 3
  have h4 := hb 4
  have h5 := hb 5
  omega

lemma le_get_u56_lt (b : Nat → Nat) (hb : isByteBuffer b) :
    little_endian.get_u56 b < 2 ^ 56 := by
  unfold little_endian.get_u56
  simp only [Nat.shiftLeft_eq]
  rw [lor_bytes7 (b 6) (b 5) (b 4) (b 3) (b 2) (b 1) (b 0) (hb 5) (hb 4)
    (hb 3) (hb 2) (hb 1) (hb 0)]
  have h0 := hb 0
  have h1 := hb 1
  have h2 := hb 2
  have h3 := hb 3
  have h4 := hb 4
  have h5 := hb 5
  have h6 := hb 6
  omega

lemma le_get_u64_lt (b : Nat → Nat) (hb : isByteBuffer b) :
    little_endian.get_u64 b < 2 ^ 64 := by
  unfold little_endian.get_u64
  omega

lemma be_get_u8_lt (b : Nat → Nat) (hb : isByteBuffer b) :
    big_endian.get_u8 b < 2 ^ 8 := hb 0

lemma be_get_u16_lt (b : Nat → Nat) (hb : isByteBuffer b) :
    big_endian.get_u16 b < 2 ^ 16 := by
  unfold big_endian.get_u16
  omega

lemma be_get_u24_lt (b : Nat → Nat) (hb : isByteBuffer b) :
    big_endian.get_u24 b < 2 ^ 24 := by
  unfold big_endian.get_u24
  omega

lemma be_get_u32_lt (b : Nat → Nat) (hb : isByteBuffer b) :
    big_endian.get_u32 b < 2 ^ 32 := by
  unfold big_endian.get_u32
  omega

lemma be_get_u40_lt (b : Nat → Nat) (hb : isByteBuffer b) :
    big_endian.get_u40 b < 2 ^ 40 := by
  unfold big_endian.get_u40
  omega

lemma be_get_u48_lt (b : Nat → Nat) (hb : isByteBuffer b) :
    big_endian.get_u48 b < 2 ^ 48 := by
  unfold big_endian.get_u48
  omega

lemma be_get_u56_lt (b : Nat → Nat) (hb : isByteBuffer b) :
    big_endian.get_u56 b < 2 ^ 56 := by
  unfold big_endian.get_u56
  omega

lemma be_get_u64_lt (b : Nat → Nat) (hb : isByteBuffer b) :
    big_endian.get_u64 b < 2 ^ 64 := by
  unfold big_endian.get_u64
  omega

/-- C7: for every width and order, `put` truncates the container value to the
declared width — `get` after `put` recovers `v mod 2^w` for every container
value `v`, with no range validation — and unsigned `get` of a byte buffer
zero-extends: its result has no bits above the declared width. -/
theorem c7_truncation_extension :
    ((∀ (v : Nat) (b : Nat → Nat),
        little_endian.get_u8 (little_endian.put_u8 v b) = v % 2 ^ 8) ∧
     (∀ b : Nat → Nat, isByteBuffer b → little_endian.get_u8 b < 2 ^ 8)) ∧
    ((∀ (v : Nat) (b : Nat → Nat),
        little_endian.get_u16 (little_endian.put_u16 v b) = v % 2 ^ 16) ∧
     (∀ b : Nat → Nat, isByteBuffer b → little_endian.get_u16 b < 2 ^ 16)) ∧
    ((∀ (v : Nat) (b : Nat → Nat),
        little_endian.get_u24 (little_endian.put_u24 v b) = v % 2 ^ 24) ∧
     (∀ b : Nat → Nat, isByteBuffer b → little_endian.get_u24 b < 2 ^ 24)) ∧
    ((∀ (v : Nat) (b : Nat → Nat),
        little_endian.get_u32 (little_endian.put_u32 v b) = v % 2 ^ 32) ∧
     (∀ b : Nat → Nat, isByteBuffer b → little_endian.get_u32 b < 2 ^ 32)) ∧
    ((∀ (v : Nat) (b : Nat → Nat),
        little_endian.get_u40 (little_endian.put_u40 v b) = v % 2 ^ 40) ∧
     (∀ b : Nat → Nat, isByteBuffer b → little_endian.get_u40 b < 2 ^ 40)) ∧
    ((∀ (v : Nat) (b : Nat → Nat),
        little_endian.get_u48 (little_endian.put_u48 v b) = v % 2 ^ 48) ∧
     (∀ b : Nat → Nat, isByteBuffer b → little_endian.get_u48 b < 2 ^ 48)) ∧
    ((∀ (v : Nat) (b : Nat → Nat),
        little_endian.get_u56 (little_endian.put_u56 v b) = v % 2 ^ 56) ∧
     (∀ b : Nat → Nat, isByteBuffer b → little_endian.get_u56 b < 2 ^ 56)) ∧
    ((∀ (v : Nat) (b : Nat → Nat),
        little_endian.get_u64 (little_endian.put_u64 v b) = v % 2 ^ 64) ∧
     (∀ b : Nat → Nat, isByteBuffer b → little_endian.get_u64 b < 2 ^ 64)) ∧
    ((∀ (v : Nat) (b : Nat → Nat),
        big_endian.get_u8 (big_endian.put_u8 v b) = v % 2 ^ 8) ∧
     (∀ b : Nat → Nat, isByteBuffer b → big_endian.get_u8 b < 2 ^ 8)) ∧
    ((∀ (v : Nat) (b : Nat → Nat),
        big_endian.get_u16 (big_endian.put_u16 v b) = v % 2 ^ 16) ∧
     (∀ b : Nat → Nat, isByteBuffer b → big_endian.get_u16 b < 2 ^ 16)) ∧
    ((∀ (v : Nat) (b : Nat → Nat),
        big_endian.get_u24 (big_endian.put_u24 v b) = v % 2 ^ 24) ∧
     (∀ b : Nat → Nat, isByteBuffer b → big_endian.get_u24 b < 2 ^ 24)) ∧
    ((∀ (v : Nat) (b : Nat → Nat),
        big_endian.get_u32 (big_endian.put_u32 v b) = v % 2 ^ 32) ∧
     (∀ b : Nat → Nat, isByteBuffer b → big_endian.get_u32 b < 2 ^ 32)) ∧
    ((∀ (v : Nat) (b : Nat → Nat),
        big_endian.get_u40 (big_endian.put_u40 v b) = v % 2 ^ 40) ∧
     (∀ b : Nat → Nat, isByteBuffer b → big_endian.get_u40 b < 2 ^ 40)) ∧
    ((∀ (v : Nat) (b : Nat → Nat),
        big_endian.get_u48 (big_endian.put_u48 v b) = v % 2 ^ 48) ∧
     (∀ b : Nat → Nat, isByteBuffer b → big_endian.get_u48 b < 2 ^ 48)) ∧
    ((∀ (v : Nat) (b : Nat → Nat),
        big_endian.get_u56 (big_endian.put_u56 v b) = v % 2 ^ 56) ∧
     (∀ b : Nat → Nat, isByteBuffer b → big_endian.get_u56 b < 2 ^ 56)) ∧
    ((∀ (v : Nat) (b : Nat → Nat),
        big_endian.get_u64 (big_endian.put_u64 v b) = v % 2 ^ 64) ∧
     (∀ b : Nat → Nat, isByteBuffer b → big_endian.get_u64 b < 2 ^ 64)) :=
  ⟨⟨le_rt_u8, le_get_u8_lt⟩, ⟨le_rt_u16, le_get_u16_lt⟩,
   ⟨le_rt_u24, le_get_u24_lt⟩, ⟨le_rt_u32, le_get_u32_lt⟩,
   ⟨le_rt_u40, le_get_u40_lt⟩, ⟨le_rt_u48, le_get_u48_lt⟩,
   ⟨le_rt_u56, le_get_u56_lt⟩, ⟨le_rt_u64, le_get_u64_lt⟩,
   ⟨be_rt_u8, be_get_u8_lt⟩, ⟨be_rt_u16, be_get_u16_lt⟩,
   ⟨be_rt_u24, be_get_u24_lt⟩, ⟨be_rt_u32, be_get_u32_lt⟩,
   ⟨be_rt_u40, be_get_u40_lt⟩, ⟨be_rt_u48, be_get_u48_lt⟩,
   ⟨be_rt_u56, be_get_u56_lt⟩, ⟨be_rt_u64, be_get_u64_lt⟩⟩

theorem c7_truncation_extension_witness :
    isByteBuffer zeroBuf ∧
    little_endian.get_u24 zeroBuf < 2 ^ 24 :=
  ⟨zeroBuf_bytes, c7_truncation_extension.2.2.1.2 zeroBuf zeroBuf_bytes⟩

/-- C6: for every signed width (8/16/32/64 bits) and both orders, the signed
`get` is the two's-complement reinterpretation of the unsigned `get` of the
same width (it agrees with it modulo `2^w` and lies in the signed range),
and the signed `put` of `v` is the unsigned `put` of a value `u` that is
exactly `v`'s two's-complement bit pattern (`u < 2^w` and `u ≡ v mod 2^w`);
no separate sign-magnitude logic exists. -/
theorem c6_signed_delegation :
    ((∀ b : Nat → Nat, isByteBuffer b →
        little_endian.get_i8 b % 2 ^ 8 = (little_endian.get_u8 b : Int) ∧
        -2 ^ 7 ≤ little_endian.get_i8 b ∧ little_endian.get_i8 b < 2 ^ 7) ∧
     (∀ (v : Int) (b : Nat → Nat), -2 ^ 7 ≤ v → v < 2 ^ 7 →
        ∃ u : Nat, u < 2 ^ 8 ∧ (u : Int) % 2 ^ 8 = v % 2 ^ 8 ∧
          little_endian.put_i8 v b = little_endian.put_u8 u b)) ∧
    ((∀ b : Nat → Nat, isByteBuffer b →
        little_endian.get_i16 b % 2 ^ 16 = (little_endian.get_u16 b : Int) ∧
        -2 ^ 15 ≤ little_endian.get_i16 b ∧
        little_endian.get_i16 b < 2 ^ 15) ∧
     (∀ (v : Int) (b : Nat → Nat), -2 ^ 15 ≤ v → v < 2 ^ 15 →
        ∃ u : Nat, u < 2 ^ 16 ∧ (u : Int) % 2 ^ 16 = v % 2 ^ 16 ∧
          little_endian.put_i16 v b = little_endian.put_u16 u b)) ∧
    ((∀ b : Nat → Nat, isByteBuffer b →
        little_endian.get_i32 b % 2 ^ 32 = (little_endian.get_u32 b : Int) ∧
        -2 ^ 31 ≤ little_endian.get_i32 b ∧
        little_endian.get_i32 b < 2 ^ 31) ∧
     (∀ (v : Int) (b : Nat → Nat), -2 ^ 31 ≤ v → v < 2 ^ 31 →
        ∃ u : Nat, u < 2 ^ 32 ∧ (u : Int) % 2 ^ 32 = v % 2 ^ 32 ∧
          little_endian.put_i32 v b = little_endian.put_u32 u b)) ∧
    ((∀ b : Nat → Nat, isByteBuffer b →
        little_endian.get_i64 b % 2 ^ 64 = (little_endian.get_u64 b : Int) ∧
        -2 ^ 63 ≤ little_endian.get_i64 b ∧
        little_endian.get_i64 b < 2 ^ 63) ∧
     (∀ (v : Int) (b : Nat → Nat), -2 ^ 63 ≤ v → v < 2 ^ 63 →
        ∃ u : Nat, u < 2 ^ 64 ∧ (u : Int) % 2 ^ 64 = v % 2 ^ 64 ∧
          little_endian.put_i64 v b = little_endian.put_u64 u b)) ∧
    ((∀ b : Nat → Nat, isByteBuffer b →
        big_endian.get_i8 b % 2 ^ 8 = (big_endian.get_u8 b : Int) ∧
        -2 ^ 7 ≤ big_endian.get_i8 b ∧ big_endian.get_i8 b < 2 ^ 7) ∧
     (∀ (v : Int) (b : Nat → Nat), -2 ^ 7 ≤ v → v < 2 ^ 7 →
        ∃ u : Nat, u < 2 ^ 8 ∧ (u : Int) % 2 ^ 8 = v % 2 ^ 8 ∧
          big_endian.put_i8 v b = big_endian.put_u8 u b)) ∧
    ((∀ b : Nat → Nat, isByteBuffer b →
        big_endian.get_i16 b % 2 ^ 16 = (big_endian.get_u16 b : Int) ∧
        -2 ^ 15 ≤ big_endian.get_i16 b ∧ big_endian.get_i16 b < 2 ^ 15) ∧
     (∀ (v : Int) (b : Nat → Nat), -2 ^ 15 ≤ v → v < 2 ^ 15 →
        ∃ u : Nat, u < 2 ^ 16 ∧ (u : Int) % 2 ^ 16 = v % 2 ^ 16 ∧
          big_endian.put_i16 v b = big_endian.put_u16 u b)) ∧
    ((∀ b : Nat → Nat, isByteBuffer b →
        big_endian.get_i32 b % 2 ^ 32 = (big_endian.get_u32 b : Int) ∧
        -2 ^ 31 ≤ big_endian.get_i32 b ∧ big_endian.get_i32 b < 2 ^ 31) ∧
     (∀ (v : Int) (b : Nat → Nat), -2 ^ 31 ≤ v → v < 2 ^ 31 →
        ∃ u : Nat, u < 2 ^ 32 ∧ (u : Int) % 2 ^ 32 = v % 2 ^ 32 ∧
          big_endian.put_i32 v b = big_endian.put_u32 u b)) ∧
    ((∀ b : Nat → Nat, isByteBuffer b →
        big_endian.get_i64 b % 2 ^ 64 = (big_endian.get_u64 b : Int) ∧
        -2 ^ 63 ≤ big_endian.get_i64 b ∧ big_endian.get_i64 b < 2 ^ 63) ∧
     (∀ (v : Int) (b : Nat → Nat), -2 ^ 63 ≤ v → v < 2 ^ 63 →
        ∃ u : Nat, u < 2 ^ 64 ∧ (u : Int) % 2 ^ 64 = v % 2 ^ 64 ∧
          big_endian.put_i64 v b = big_endian.put_u64 u b)) := by
  refine ⟨⟨?_, ?_⟩, ⟨?_, ?_⟩, ⟨?_, ?_⟩, ⟨?_, ?_⟩, ⟨?_, ?_⟩, ⟨?_, ?_⟩,
    ⟨?_, ?_⟩, ⟨?_, ?_⟩⟩
  · intro b hb
    have hu := le_get_u8_lt b hb
    unfold little_endian.get_i8 toSigned
    split_ifs with h <;> refine ⟨?_, ?_, ?_⟩ <;> omega
  · intro v b h1 h2
    exact ⟨toUnsigned 8 v, by unfold toUnsigned; omega,
      by unfold toUnsigned; omega, rfl⟩
  · intro b hb
    have hu := le_get_u16_lt b hb
    unfold little_endian.get_i16 toSigned
    split_ifs with h <;> refine ⟨?_, ?_, ?_⟩ <;> omega
  · intro v b h1 h2
    exact ⟨toUnsigned 16 v, by unfold toUnsigned; omega,
      by unfold toUnsigned; omega, rfl⟩
  · intro b hb
    have hu := le_get_u32_lt b hb
    unfold little_endian.get_i32 toSigned
    split_ifs with h <;> refine ⟨?_, ?_, ?_⟩ <;> omega
  · intro v b h1 h2
    exact ⟨toUnsigned 32 v, by unfold toUnsigned; omega,
      by unfold toUnsigned; omega, rfl⟩
  · intro b hb
    have hu := le_get_u64_lt b hb
    unfold little_endian.get_i64 toSigned
    split_ifs with h <;> refine ⟨?_, ?_, ?_⟩ <;> omega
  · intro v b h1 h2
    exact ⟨toUnsigned 64 v, by unfold toUnsigned; omega,
      by unfold toUnsigned; omega, rfl⟩
  · intro b hb
    have hu := be_get_u8_lt b hb
    unfold big_endian.get_i8 toSigned
    split_ifs with h <;> refine ⟨?_, ?_, ?_⟩ <;> omega
  · intro v b h1 h2
    exact ⟨toUnsigned 8 v, by unfold toUnsigned; omega,
      by unfold toUnsigned; omega, rfl⟩
  · intro b hb
    have hu := be_get_u16_lt b hb
    unfold big_endian.get_i16 toSigned
    split_ifs with h <;> refine ⟨?_, ?_, ?_⟩ <;> omega
  · intro v b h1 h2
    exact ⟨toUnsigned 16 v, by unfold toUnsigned; omega,
      by unfold toUnsigned; omega, rfl⟩
  · intro b hb
    have hu := be_get_u32_lt b hb
    unfold big_endian.get_i32 toSigned
    split_ifs with h <;> refine ⟨?_, ?_, ?_⟩ <;> omega
  · intro v b h1 h2
    exact ⟨toUnsigned 32 v, by unfold toUnsigned; omega,
      by unfold toUnsigned; omega, rfl⟩
  · intro b hb
    have hu := be_get_u64_lt b hb
    unfold big_endian.get_i64 toSigned
    split_ifs with h <;> refine ⟨?_, ?_, ?_⟩ <;> omega
  · intro v b h1 h2
    exact ⟨toUnsigned 64 v, by unfold toUnsigned; omega,
      by unfold toUnsigned; omega, rfl⟩

theorem c6_signed_delegation_witness :
    isByteBuffer zeroBuf ∧
    (little_endian.get_i16 zeroBuf % 2 ^ 16 =
      (little_endian.get_u16 zeroBuf : Int) ∧
     -2 ^ 15 ≤ little_endian.get_i16 zeroBuf ∧
     little_endian.get_i16 zeroBuf < 2 ^ 15) ∧
    (-2 ^ 15 ≤ (-1 : Int) ∧ (-1 : Int) < 2 ^ 15 ∧
     ∃ u : Nat, u < 2 ^ 16 ∧ (u : Int) % 2 ^ 16 = (-1 : Int) % 2 ^ 16 ∧
       little_endian.put_i16 (-1) zeroBuf = little_endian.put_u16 u zeroBuf) :=
  ⟨zeroBuf_bytes,
   c6_signed_delegation.2.1.1 zeroBuf zeroBuf_bytes,
   by decide, by decide,
   c6_signed_delegation.2.1.2 (-1) zeroBuf (by decide) (by decide)⟩

/-- C1: for every supported width and byte order, and every value
representable in that width (including 0, the maximum, and for signed
widths the minimum negative value), `get` after `put` on the same buffer
returns the value unchanged. -/
theorem c1_roundtrip :
    (∀ (v : Nat) (b : Nat → Nat), v < 2 ^ 8 →
        little_endian.get_u8 (little_endian.put_u8 v b) = v) ∧
    (∀ (v : Nat) (b : Nat → Nat), v < 2 ^ 16 →
        little_endian.get_u16 (little_endian.put_u16 v b) = v) ∧
    (∀ (v : Nat) (b : Nat → Nat), v < 2 ^ 24 →
        little_endian.get_u24 (little_endian.put_u24 v b) = v) ∧
    (∀ (v : Nat) (b : Nat → Nat), v < 2 ^ 32 →
        little_endian.get_u32 (little_endian.put_u32 v b) = v) ∧
    (∀ (v : Nat) (b : Nat → Nat), v < 2 ^ 40 →
        little_endian.get_u40 (little_endian.put_u40 v b) = v) ∧
    (∀ (v : Nat) (b : Nat → Nat), v < 2 ^ 48 →
        little_endian.get_u48 (little_endian.put_u48 v b) = v) ∧
    (∀ (v : Nat) (b : Nat → Nat), v < 2 ^ 56 →
        little_endian.get_u56 (little_endian.put_u56 v b) = v) ∧
    (∀ (v : Nat) (b : Nat → Nat), v < 2 ^ 64 →
        little_endian.get_u64 (little_endian.put_u64 v b) = v) ∧
    (∀ (v : Nat) (b : Nat → Nat), v < 2 ^ 8 →
        big_endian.get_u8 (big_endian.put_u8 v b) = v) ∧
    (∀ (v : Nat) (b : Nat → Nat), v < 2 ^ 16 →
        big_endian.get_u16 (big_endian.put_u16 v b) = v) ∧
    (∀ (v : Nat) (b : Nat → Nat), v < 2 ^ 24 →
        big_endian.get_u24 (big_endian.put_u24 v b) = v) ∧
    (∀ (v : Nat) (b : Nat → Nat), v < 2 ^ 32 →
        big_endian.get_u32 (big_endian.put_u32 v b) = v) ∧
    (∀ (v : Nat) (b : Nat → Nat), v < 2 ^ 40 →
        big_endian.get_u40 (big_endian.put_u40 v b) = v) ∧
    (∀ (v : Nat) (b : Nat → Nat), v < 2 ^ 48 →
        big_endian.get_u48 (big_endian.put_u48 v b) = v) ∧
    (∀ (v : Nat) (b : Nat → Nat), v < 2 ^ 56 →
        big_endian.get_u56 (big_endian.put_u56 v b) = v) ∧
    (∀ (v : Nat) (b : Nat → Nat), v < 2 ^ 64 →
        big_endian.get_u64 (big_endian.put_u64 v b) = v) ∧
    (∀ (v : Int) (b : Nat → Nat), -2 ^ 7 ≤ v → v < 2 ^ 7 →
        little_endian.get_i8 (little_endian.put_i8 v b) = v) ∧
    (∀ (v : Int) (b : Nat → Nat), -2 ^ 15 ≤ v → v < 2 ^ 15 →
        little_endian.get_i16 (little_endian.put_i16 v b) = v) ∧
    (∀ (v : Int) (b : Nat → Nat), -2 ^ 31 ≤ v → v < 2 ^ 31 →
        little_endian.get_i32 (little_endian.put_i32 v b) = v) ∧
    (∀ (v : Int) (b : Nat → Nat), -2 ^ 63 ≤ v → v < 2 ^ 63 →
        little_endian.get_i64 (little_endian.put_i64 v b) = v) ∧
    (∀ (v : Int) (b : Nat → Nat), -2 ^ 7 ≤ v → v < 2 ^ 7 →
        big_endian.get_i8 (big_endian.put_i8 v b) = v) ∧
    (∀ (v : Int) (b : Nat → Nat), -2 ^ 15 ≤ v → v < 2 ^ 15 →
        big_endian.get_i16 (big_endian.put_i16 v b) = v) ∧
    (∀ (v : Int) (b : Nat → Nat), -2 ^ 31 ≤ v → v < 2 ^ 31 →
        big_endian.get_i32 (big_endian.put_i32 v b) = v) ∧
    (∀ (v : Int) (b : Nat → Nat), -2 ^ 63 ≤ v → v < 2 ^ 63 →
        big_endian.get_i64 (big_endian.put_i64 v b) = v) := by
  refine ⟨?_, ?_, ?_, ?_, ?_, ?_, ?_, ?_, ?_, ?_, ?_, ?_, ?_, ?_, ?_, ?_,
    le_rt_i8, le_rt_i16, le_rt_i32, le_rt_i64,
    be_rt_i8, be_rt_i16, be_rt_i32, be_rt_i64⟩
  · intro v b hv
    rw [le_rt_u8]
    omega
  · intro v b hv
    rw [le_rt_u16]
    omega
  · intro v b hv
    rw [le_rt_u24]
    omega
  · intro v b hv
    rw [le_rt_u32]
    omega
  · intro v b hv
    rw [le_rt_u40]
    omega
  · intro v b hv
    rw [le_rt_u48]
    omega
  · intro v b hv
    rw [le_rt_u56]
    omega
  · intro v b hv
    rw [le_rt_u64]
    omega
  · intro v b hv
    rw [be_rt_u8]
    omega
  · intro v b hv
    rw [be_rt_u16]
    omega
  · intro v b hv
    rw [be_rt_u24]
    omega
  · intro v b hv
    rw [be_rt_u32]
    omega
  · intro v b hv
    rw [be_rt_u40]
    omega
  · intro v b hv
    rw [be_rt_u48]
    omega
  · intro v b hv
    rw [be_rt_u56]
    omega
  · intro v b hv
    rw [be_rt_u64]
    omega

theorem c1_roundtrip_witness :
    ((0 : Nat) < 2 ^ 8 ∧
     little_endian.get_u8 (little_endian.put_u8 0 zeroBuf) = 0) ∧
    (2 ^ 64 - 1 < 2 ^ 64 ∧
     little_endian.get_u64 (little_endian.put_u64 (2 ^ 64 - 1) zeroBuf) =
       2 ^ 64 - 1) ∧
    (-2 ^ 63 ≤ (-2 ^ 63 : Int) ∧ (-2 ^ 63 : Int) < 2 ^ 63 ∧
     little_endian.get_i64 (little_endian.put_i64 (-2 ^ 63) zeroBuf) =
       -2 ^ 63) :=
  ⟨⟨by decide, c1_roundtrip.1 0 zeroBuf (by decide)⟩,
   ⟨by decide,
    c1_roundtrip.2.2.2.2.2.2.2.1 (2 ^ 64 - 1) zeroBuf (by decide)⟩,
   by decide, by decide,
   c1_roundtrip.2.2.2.2.2.2.2.2.2.2.2.2.2.2.2.2.2.2.2.1 (-2 ^ 63) zeroBuf
     (by decide) (by decide)⟩
